import Mathlib

/-!
Verification of the barcode encoding core of `barcode.py` (py-barcode).

The Python source is shallowly embedded: each method becomes a Lean
function over `String` / `List Char`; the Python dict `CODABAR_DICT`
becomes an association list; a `KeyError` on dict lookup is modelled by
`Option`; a `ValueError` raised in a constructor is modelled by the
constructor returning `none`.

The options dict is modelled by its single recognized key: the value of
`options.get("text")` becomes an `Option String` field.
-/

/-- Python regex semantics of `re.search` with a pattern of the form
caret, character class, plus, dollar: `^` anchors at the start
of the string (no MULTILINE), and `$` matches at the end of the string or
just before one newline that ends the string.  Hence the match succeeds
exactly on the string with one trailing newline removed (if present).
This strips that optional trailing newline. -/
def stripTrailingNewline (l : List Char) : List Char :=
  if l.getLast? == some '\n' then l.dropLast else l

/-- The Codabar character class `[0-9\-\$\:\.\+\/]` of `Codabar.is_valid`
(src/barcode.py line 209). -/
def codabarAllowed (c : Char) : Bool :=
  ('0' ≤ c && c ≤ '9') || c == '-' || c == '$' || c == ':' || c == '.' || c == '+' || c == '/'

/-- `Codabar.is_valid` (src/barcode.py lines 195-209):
a `re.search` of an anchored character-class pattern, caret `[0-9\-\$\:\.\+\/]+` dollar. -/
def codabar_is_valid (data : String) : Bool :=
  let core := stripTrailingNewline data.data
  !core.isEmpty && core.all codabarAllowed

/-- Python `str.upper()`, restricted to the ASCII range exercised by the
program (Python and `Char.toUpper` agree on ASCII). -/
def pyUpper (s : String) : String :=
  ⟨s.data.map Char.toUpper⟩

/-- The normalization performed by `Codabar.__init__` (src/barcode.py
line 193): `f"A{data}A".upper()` is the stored data. -/
def codabarNormalize (data : String) : String :=
  pyUpper ("A" ++ data ++ "A")

/-- `CODABAR_DICT` (src/barcode.py lines 142-163). -/
def CODABAR_DICT : List (Char × String) :=
  [ ('0', "101010011"),
    ('1', "101011001"),
    ('2', "101001011"),
    ('3', "110010101"),
    ('4', "101101001"),
    ('5', "110101001"),
    ('6', "100101011"),
    ('7', "100101101"),
    ('8', "100110101"),
    ('9', "110100101"),
    ('-', "101001101"),
    ('$', "101100101"),
    (':', "1101011011"),
    ('/', "1101101011"),
    ('.', "1101101101"),
    ('+', "1011011011"),
    ('A', "1011001001"),
    ('B', "1001001011"),
    ('C', "1010010011"),
    ('D', "1010011001") ]

/-- `CODABAR_DICT[token]`: dict indexing; `none` models `KeyError`. -/
def codabarLookup (c : Char) : Option String :=
  CODABAR_DICT.lookup c

/-- The list comprehension `[CODABAR_DICT[token] for token in self.data]`
(src/barcode.py line 234): evaluates left to right, and a `KeyError` on any
token aborts the whole comprehension (`none`). -/
def lookupTokens : List Char → Option (List String)
  | [] => some []
  | c :: cs =>
    match codabarLookup c, lookupTokens cs with
    | some p, some ps => some (p :: ps)
    | _, _ => none

/-- Python `sep.join(parts)`. -/
def pyJoin (sep : String) : List String → String
  | [] => ""
  | [x] => x
  | x :: xs => x ++ sep ++ pyJoin sep xs

/-- `Codabar.encode` (src/barcode.py lines 225-234):
a join with separator `"0"` of `[CODABAR_DICT[token] for token in self.data]`, applied to the
stored (normalized) data; `none` models the `KeyError` escape. -/
def codabarEncode (data : String) : Option String :=
  (lookupTokens data.data).map (pyJoin "0")

/-- `re.sub(r"[A-D]", "", s)` from `Codabar.text` (src/barcode.py line 222):
removes every character in the range A-D. -/
def stripGuards (s : String) : String :=
  ⟨s.data.filter (fun c => !('A' ≤ c && c ≤ 'D'))⟩

/-- A constructed barcode object: the fields `Barcode.__init__` stores
(src/barcode.py lines 74-77), with the options dict represented by its
recognized `text` entry. -/
structure BarcodeValue where
  data : String
  optText : Option String
  name : String
  deriving DecidableEq

/-- `Codabar.__init__` (src/barcode.py lines 190-193): raises `ValueError`
(modelled as `none`) unless `is_valid(data)`, else stores
the f-string bracketing `data` with `A` on both ends, upper-cased, with name `codabar`. -/
def mkCodabar (data : String) (optText : Option String) : Option BarcodeValue :=
  if codabar_is_valid data then
    some ⟨codabarNormalize data, optText, "codabar"⟩
  else
    none

/-- The base `Barcode.text` property (src/barcode.py lines 115-125):
`self.options.get("text", self.data)`. -/
def barcodeText (v : BarcodeValue) : String :=
  v.optText.getD v.data

/-- The overridden `Codabar.text` property (src/barcode.py lines 212-222):
`self.options.get("text", re.sub("[A-D]", "", self.data))`. -/
def codabarText (v : BarcodeValue) : String :=
  v.optText.getD (stripGuards v.data)

/-- The digit class `[0-9]` of `Upc.is_valid`. -/
def pyDigit (c : Char) : Bool :=
  '0' ≤ c && c ≤ '9'

/-- `Upc.is_valid` (src/barcode.py lines 265-279):
a `re.search` of the anchored pattern caret `[0-9]` repeated 11 to 12 times, dollar. -/
def upc_is_valid (data : String) : Bool :=
  let core := stripTrailingNewline data.data
  core.all pyDigit && (core.length == 11 || core.length == 12)

/-- `Upc.__init__` (src/barcode.py lines 260-263): raises `ValueError`
(modelled as `none`) unless `is_valid(data)`, else stores `data` unchanged
with name `codabar` (the literal the source passes). -/
def mkUpc (data : String) (optText : Option String) : Option BarcodeValue :=
  if upc_is_valid data then
    some ⟨data, optText, "codabar"⟩
  else
    none

/-- `Upc.encode` (src/barcode.py lines 282-291): `return "" # implement`. -/
def upcEncode (_ : String) : String :=
  ""

/-- The valid-input grammar the spec gives for Codabar, `[0-9\-$:.+/]+`, read as a
full-string match: one or more characters, every one in the allowed class.
Used to state claims about "valid Codabar inputs". -/
def matchesCodabarPattern (s : String) : Bool :=
  !s.data.isEmpty && s.data.all codabarAllowed

/-- Every character in the Codabar allowed class is unchanged by upper-casing
and has an entry in `CODABAR_DICT`. -/
theorem codabarAllowed_enum (c : Char) (h : codabarAllowed c = true) :
    Char.toUpper c = c ∧ (codabarLookup c).isSome = true := by
  unfold codabarAllowed at h
  simp only [Bool.or_eq_true, Bool.and_eq_true, beq_iff_eq, decide_eq_true_eq] at h
  rcases h with ((((((⟨h1, h2⟩ | h) | h) | h) | h) | h) | h)
  · have l1 : 48 ≤ c.toNat := by simpa [Char.le_def] using h1
    have l2 : c.toNat ≤ 57 := by simpa [Char.le_def] using h2
    rw [← Char.ofNat_toNat c]
    generalize hg : c.toNat = n at l1 l2 ⊢
    interval_cases n <;> exact ⟨rfl, rfl⟩
  all_goals (subst h; exact ⟨rfl, rfl⟩)

/-- The character list of the normalized data: guard, upper-cased input, guard. -/
theorem normalize_data (d : String) :
    (codabarNormalize d).data = 'A' :: (d.data.map Char.toUpper ++ ['A']) := by
  show (("A" ++ d ++ "A").data.map Char.toUpper) = _
  rw [String.data_append, String.data_append]
  simp [List.map_append]

/-- When every token has a table entry, the comprehension succeeds and returns
exactly the looked-up patterns. -/
theorem lookupTokens_eq (l : List Char) (h : ∀ c ∈ l, (codabarLookup c).isSome = true) :
    lookupTokens l = some (l.map (fun c => (codabarLookup c).getD "")) := by
  induction l with
  | nil => rfl
  | cons c cs ih =>
    have hc := h c (by simp)
    obtain ⟨p, hp⟩ := Option.isSome_iff_exists.mp hc
    rw [lookupTokens, hp, ih (fun x hx => h x (by simp [hx]))]
    simp [hp]

/-- Length of a join with the one-character separator `"0"`: the sum of the
part lengths plus one separator between each adjacent pair. -/
theorem pyJoin_len (l : List String) (h : l ≠ []) :
    (pyJoin "0" l).length = (l.map String.length).sum + (l.length - 1) := by
  induction l with
  | nil => simp at h
  | cons x xs ih =>
    cases xs with
    | nil => simp [pyJoin]
    | cons y ys =>
      have hu : pyJoin "0" (x :: y :: ys) = x ++ "0" ++ pyJoin "0" (y :: ys) := rfl
      rw [hu, String.length_append, String.length_append, ih (by simp)]
      simp only [List.map_cons, List.sum_cons, List.length_cons]
      have hz : "0".length = 1 := rfl
      omega

/-- For an input inside the Codabar grammar, every character of the normalized
data has a `CODABAR_DICT` entry. -/
theorem normalize_lookup_total (d : String) (h : matchesCodabarPattern d = true) :
    ∀ c ∈ (codabarNormalize d).data, (codabarLookup c).isSome = true := by
  intro c hc
  rw [normalize_data] at hc
  simp only [List.mem_cons, List.mem_append, List.mem_map, List.not_mem_nil, or_false] at hc
  rcases hc with rfl | ⟨⟨u, hu, rfl⟩ | rfl⟩
  · rfl
  · unfold matchesCodabarPattern at h
    simp only [Bool.and_eq_true, List.all_eq_true] at h
    obtain ⟨hau, hsome⟩ := codabarAllowed_enum u (h.2 u hu)
    rw [hau]
    exact hsome
  · rfl

/-- Claim C1: the claim states that any input accepted by `Codabar.is_valid`
encodes without error.  The code refutes it: the Python dollar anchor also
matches just before one trailing newline, so the input consisting of `12`
followed by a newline passes `is_valid`, yet its normalized form contains the
newline character, which has no `CODABAR_DICT` entry, and `encode` raises
`KeyError` (modelled as `none`).  This contradicts the documented contract
that `encode` never fails after `validate` passes, so it is a code bug. -/
theorem codabar_validate_encode_gap :
    codabar_is_valid "12\n" = true ∧
    codabarNormalize "12\n" = "A12\nA" ∧
    codabarEncode (codabarNormalize "12\n") = none := by decide

/-- Claim C2: the claim states that `Codabar.is_valid` rejects every input
containing a character outside the class of digits and `- $ : . + /`.  The
code refutes the rejection half: the input `12` followed by a newline contains
a character outside the class yet is accepted, because the Python dollar
anchor also matches just before one trailing newline.  The other halves hold
at the tested points: an input with a space is rejected and construction
fails (returns `none`, modelling the raised exception). -/
theorem codabar_validate_newline_accepted :
    codabar_is_valid "12\n" = true ∧ codabarAllowed '\n' = false ∧
    codabar_is_valid "12 34" = false ∧ mkCodabar "12 34" none = none := by decide

/-- Claim C3: for every input accepted by `Codabar.is_valid`, the normalized
data equals the upper-cased input bracketed by the guard character `A` on both
ends. -/
theorem codabar_normalize_guards_upper (d : String) (h : codabar_is_valid d = true) :
    codabarNormalize d = "A" ++ pyUpper d ++ "A" := by
  have hd : (codabarNormalize d).data = ("A" ++ pyUpper d ++ "A").data := by
    rw [normalize_data, String.data_append, String.data_append]
    rfl
  exact String.ext hd

/-- Witness for claim C3 at the input `0`. -/
theorem codabar_normalize_guards_upper_witness :
    codabar_is_valid "0" = true ∧ codabarNormalize "0" = "A" ++ pyUpper "0" ++ "A" :=
  ⟨by decide, codabar_normalize_guards_upper "0" (by decide)⟩

/-- Claim C4: on a 12-digit input, `Upc.is_valid` is true and the stored data
is the input unchanged, as the claim states; but `Upc.encode` silently returns
the empty string instead of failing explicitly with a NotImplemented outcome,
contradicting the stated error-handling contract. -/
theorem upc_twelve_digit_silent_empty :
    upc_is_valid "036000291452" = true ∧
    mkUpc "036000291452" none = some ⟨"036000291452", none, "codabar"⟩ ∧
    upcEncode "036000291452" = "" := by decide

/-- Claim C5, counterexample: for the input `0` construction succeeds, yet the
stored normalized data `A0A` does not satisfy `Codabar.is_valid`, because the
guard character `A` is outside the accepted input class.  This refutes the
stated invariant that the normalized data validates against the grammar. -/
theorem codabar_normalized_invalid :
    codabar_is_valid "0" = true ∧
    (mkCodabar "0" none).map (fun v => codabar_is_valid v.data) = some false := by decide

/-- Claim C5, amended: for every input inside the Codabar grammar, every
character of the stored normalized data has a `CODABAR_DICT` entry, so the
table lookups of `encode` are total over the normalized data. -/
theorem codabar_normalized_total_lookup (d : String) (h : matchesCodabarPattern d = true) :
    (codabarNormalize d).data.all (fun c => (codabarLookup c).isSome) = true := by
  rw [List.all_eq_true]
  intro c hc
  exact normalize_lookup_total d h c hc

/-- Witness for the amended claim C5 at the input `0`. -/
theorem codabar_normalized_total_lookup_witness :
    matchesCodabarPattern "0" = true ∧
    (codabarNormalize "0").data.all (fun c => (codabarLookup c).isSome) = true :=
  ⟨by decide, codabar_normalized_total_lookup "0" (by decide)⟩

/-- Claim C6: for every input inside the Codabar grammar, encoding the
normalized data succeeds and the length of the bar pattern equals the sum of
the table-pattern lengths of the characters of the normalized data plus one
separator bit between each adjacent pair of symbols. -/
theorem codabar_encode_length (d : String) (h : matchesCodabarPattern d = true) :
    (codabarEncode (codabarNormalize d)).map String.length =
      some (((codabarNormalize d).data.map (fun c => ((codabarLookup c).getD "").length)).sum
        + ((codabarNormalize d).length - 1)) := by
  have heq := lookupTokens_eq _ (normalize_lookup_total d h)
  have h1 : codabarEncode (codabarNormalize d)
      = some (pyJoin "0" ((codabarNormalize d).data.map (fun c => (codabarLookup c).getD ""))) := by
    show (lookupTokens (codabarNormalize d).data).map (pyJoin "0") = _
    rw [heq]
    rfl
  rw [h1, Option.map_some']
  congr 1
  rw [pyJoin_len _ (by simp [normalize_data]), List.map_map, List.length_map]
  rfl

/-- Witness for claim C6 at the input `0`. -/
theorem codabar_encode_length_witness :
    matchesCodabarPattern "0" = true ∧
    (codabarEncode (codabarNormalize "0")).map String.length =
      some (((codabarNormalize "0").data.map (fun c => ((codabarLookup c).getD "").length)).sum
        + ((codabarNormalize "0").length - 1)) :=
  ⟨by decide, codabar_encode_length "0" (by decide)⟩

/-- Claim C7, counterexample: the patterns of `CODABAR_DICT` do not share one
common length: the entry for `0` has length 9 while the entry for the colon
has length 10. -/
theorem codabar_patterns_not_uniform :
    ¬ ∃ n, ∀ p ∈ CODABAR_DICT, p.2.length = n := by
  rintro ⟨n, hn⟩
  have h0 : ("101010011" : String).length = n := hn ('0', "101010011") (by decide)
  have h1 : ("1101011011" : String).length = n := hn (':', "1101011011") (by decide)
  rw [show ("101010011" : String).length = 9 from rfl] at h0
  rw [show ("1101011011" : String).length = 10 from rfl] at h1
  omega

/-- Claim C7, amended: every pattern in `CODABAR_DICT` has length 9 or
length 10. -/
theorem codabar_pattern_lengths_nine_or_ten :
    CODABAR_DICT.all (fun p => p.2.length == 9 || p.2.length == 10) = true := by decide

/-- Claim C8: with the `text` option set, both the base `Barcode.text` (which
the UPC class inherits) and the overridden `Codabar.text` return the option
value for every data value; with no override, the Codabar object constructed
from the input `1234` displays `1234`, the normalized data with the guard
characters stripped. -/
theorem displayText_contract (d n t : String) :
    barcodeText ⟨d, some t, n⟩ = t ∧
    codabarText ⟨d, some t, n⟩ = t ∧
    (mkCodabar "1234" none).map codabarText = some "1234" :=
  ⟨rfl, rfl, by decide⟩

/-- Claim C9: the input `0` normalizes to `A0A` and encodes to the pattern for
`A`, a separator, the pattern for `0`, a separator, and the pattern for `A`. -/
theorem codabar_zero_scenario :
    codabarNormalize "0" = "A0A" ∧
    codabarEncode "A0A" =
      some ("1011001001" ++ "0" ++ "101010011" ++ "0" ++ "1011001001") ∧
    codabarLookup 'A' = some "1011001001" ∧ codabarLookup '0' = some "101010011" := by decide

/-- Claim C10: every successfully constructed UPC object carries the symbology
name `codabar` (the literal the source passes), and every successfully
constructed Codabar object carries the same name, so the logical name exposed
for default filename construction is identical for both symbologies. -/
theorem upc_name_is_codabar (d d2 : String) (o o2 : Option String)
    (h : upc_is_valid d = true) :
    (mkUpc d o).map BarcodeValue.name = some "codabar" ∧
    (mkCodabar d2 o2 = none ∨ (mkCodabar d2 o2).map BarcodeValue.name = some "codabar") := by
  constructor
  · simp [mkUpc, h]
  · by_cases h2 : codabar_is_valid d2
    · right
      simp [mkCodabar, h2]
    · left
      simp [mkCodabar, h2]

/-- Witness for claim C10 at an 11-digit UPC input and the Codabar input
`1234`. -/
theorem upc_name_is_codabar_witness :
    upc_is_valid "03600029145" = true ∧
    ((mkUpc "03600029145" none).map BarcodeValue.name = some "codabar" ∧
      (mkCodabar "1234" none = none ∨
        (mkCodabar "1234" none).map BarcodeValue.name = some "codabar")) :=
  ⟨by decide, upc_name_is_codabar "03600029145" "1234" none none (by decide)⟩
